import Mathlib

/-!
Verification of the SSL referee-analysis page (src/script.js) against its
specification.  The script's data model is the hardcoded array
`sampleRefereeData` (script.js lines 4-61): each element is an object with
fields id, name, matches, penalties, avgPenalties, homeBias and a list of
observation objects `{type, severity, description}`.  The rendering helpers
embedded here are `getSeverityEmoji` (lines 259-267) and the bias-color
ternary of `createRefereeCard` (lines 215-216).  Rationals stand for the
JavaScript floating-point numbers; every numeric literal below is exact in ℚ.
-/

/-- An observation object `{type, severity, description}` as it appears in
`sampleRefereeData` in script.js. -/
structure Observation where
  type : String
  severity : String
  description : String
deriving DecidableEq

/-- A referee record as it appears in `sampleRefereeData` in script.js.  The
JavaScript field `matches` is a Lean keyword, hence the quoted name. -/
structure Referee where
  id : Nat
  name : String
  «matches» : Nat
  penalties : Nat
  avgPenalties : ℚ
  homeBias : ℚ
  observations : List Observation
deriving DecidableEq

/-- First element of `sampleRefereeData` (script.js lines 5-15). -/
def terelius : Referee :=
  { id := 3262, name := "Patric Terelius", «matches» := 4, penalties := 10,
    avgPenalties := 2.5, homeBias := 20.0,
    observations :=
      [⟨"TIMING_PATTERN", "MEDIUM",
        "Calls disproportionate number of penalties in final period (60.0%)"⟩] }

/-- Second element of `sampleRefereeData` (script.js lines 16-27). -/
def trofast : Referee :=
  { id := 395, name := "Patrik Trofast", «matches» := 5, penalties := 9,
    avgPenalties := 1.8, homeBias := 11.1,
    observations :=
      [⟨"TIMING_PATTERN", "MEDIUM",
        "Calls disproportionate number of penalties in final period (66.7%)"⟩,
       ⟨"PENALTY_TYPE_BIAS", "LOW",
        "Shows strong preference for calling \x27Fasthållning, 2 min\x27 (44.4%)"⟩] }

/-- Third element of `sampleRefereeData` (script.js lines 28-38). -/
def jonsson : Referee :=
  { id := 3216, name := "Martin Jonsson", «matches» := 1, penalties := 5,
    avgPenalties := 5.0, homeBias := 20.0,
    observations :=
      [⟨"PENALTY_RATE", "MEDIUM",
        "Unusually strict referee - calls 5.0 penalties per match vs league average of 2.6"⟩] }

/-- Fourth element of `sampleRefereeData` (script.js lines 39-49). -/
def mattsson : Referee :=
  { id := 665, name := "Joakim Mattsson", «matches» := 1, penalties := 5,
    avgPenalties := 5.0, homeBias := 20.0,
    observations :=
      [⟨"PENALTY_RATE", "MEDIUM",
        "Unusually strict referee - calls 5.0 penalties per match"⟩] }

/-- Fifth element of `sampleRefereeData` (script.js lines 50-60). -/
def dornlov : Referee :=
  { id := 3225, name := "David Dornlöv", «matches» := 4, penalties := 6,
    avgPenalties := 1.5, homeBias := -33.3,
    observations :=
      [⟨"HOME_AWAY_BIAS", "MEDIUM",
        "Shows significant bias AGAINST away team - calls 15.3% more penalties than league average"⟩] }

/-- The sample payload `sampleRefereeData` of script.js lines 4-61, the output
record set the page renders. -/
def sampleRefereeData : List Referee :=
  [terelius, trofast, jonsson, mattsson, dornlov]

/-- A JavaScript value as returned by the bracket lookup in
`getSeverityEmoji`: either a string (an own property of the emoji table, or
the fallback emoji), or a truthy member inherited from `Object.prototype`
(tagged with the property name that reached it). -/
inductive JsValue where
  | str : String → JsValue
  | inherited : String → JsValue
deriving DecidableEq

/-- The enumerable-by-name members every plain object literal inherits from
`Object.prototype`; bracket access on the emoji table resolves these names to
truthy functions (or, for `__proto__`, to the prototype object itself), so
the `|| '🔵'` fallback does not fire on them. -/
def objectProtoKeys : List String :=
  ["constructor", "hasOwnProperty", "isPrototypeOf", "propertyIsEnumerable",
   "toLocaleString", "toString", "valueOf", "__defineGetter__",
   "__defineSetter__", "__lookupGetter__", "__lookupSetter__", "__proto__"]

/-- The `getSeverityEmoji` function of script.js lines 259-267:
`emojis[severity] || '🔵'` on the four-entry object literal.  Bracket access
traverses the prototype chain, so an own key yields its emoji, a name of an
inherited `Object.prototype` member yields that truthy member (the fallback
does not fire), and only any other string yields the default blue circle. -/
def getSeverityEmoji (severity : String) : JsValue :=
  if severity = "LOW" then .str "🟡"
  else if severity = "MEDIUM" then .str "🟠"
  else if severity = "HIGH" then .str "🔴"
  else if severity = "CRITICAL" then .str "⚠️"
  else if severity ∈ objectProtoKeys then .inherited severity
  else .str "🔵"

/-- The bias-color ternary of `createRefereeCard`, script.js lines 215-216:
red when `homeBias > 15`, else blue when `homeBias < -15`, else green. -/
def biasColor (homeBias : ℚ) : String :=
  if 15 < homeBias then "#ef4444"
  else if homeBias < -15 then "#3b82f6"
  else "#10b981"

/-- Position of an observation kind in the fixed order the spec prescribes
(PENALTY_RATE, HOME_AWAY_BIAS, TIMING_PATTERN, PENALTY_TYPE_BIAS); any other
string sorts last.  Spec-side definition, used to compare the payload's
observation lists against the prescribed order. -/
def kindIndex (t : String) : Nat :=
  if t = "PENALTY_RATE" then 0
  else if t = "HOME_AWAY_BIAS" then 1
  else if t = "TIMING_PATTERN" then 2
  else if t = "PENALTY_TYPE_BIAS" then 3
  else 4

/-- Lookup of a referee record by its identifier: the payload read as a
mapping from referee id to record, as the spec's output contract describes. -/
def lookupById (l : List Referee) (i : Nat) : Option Referee :=
  l.find? (fun r => r.id == i)

/-- Modelled from the spec: the Statistical Processor's home-bias formula
`homeBias = 100 * (homePenalties - awayPenalties) / totalPenalties`.  No such
computation exists in src/script.js (the payload is hardcoded), so the formula
is taken from the spec's §4.1 contract. -/
def homeBiasFormula (home away total : ℚ) : ℚ :=
  100 * (home - away) / total

/-- Modelled from the spec: the Pattern Detector's HOME_AWAY_BIAS rule — flag
when `|homeBias| ≥ 15`, severity MEDIUM at 15-25 and HIGH above 25.  No such
detector exists in src/script.js; this spec-side definition is compared
against the hardcoded payload. -/
def homeAwayBiasSeverity (hb : ℚ) : Option String :=
  if 15 ≤ |hb| then (if 25 < |hb| then some "HIGH" else some "MEDIUM") else none

/-- One run of the page's analysis/rendering pass: the script reads the
constant payload `sampleRefereeData` afresh on every load (script.js lines
186-193) and never mutates it, so a run is a pure function of no input. -/
def analysisRun : Unit → List Referee :=
  fun _ => sampleRefereeData

/-- The four observation kinds emitted by the spec's Pattern Detector; every
Observation of these kinds is significance-based in the spec's taxonomy. -/
def detectorKinds : List String :=
  ["PENALTY_RATE", "HOME_AWAY_BIAS", "TIMING_PATTERN", "PENALTY_TYPE_BIAS"]

/-- C1, counterexample: the claim — a HOME_AWAY_BIAS Observation is present,
with the MEDIUM/HIGH severity mandated by the rule, whenever
`homeAwayBiasSeverity` flags a record — is false on the sample payload: the
first record (Patric Terelius) has homeBias 20.0, so the rule demands a
MEDIUM HOME_AWAY_BIAS Observation, yet its only observation is a
TIMING_PATTERN one. -/
theorem c1_counterexample :
    ¬ (∀ r ∈ sampleRefereeData, ∀ s : String,
        homeAwayBiasSeverity r.homeBias = some s →
          ∃ o ∈ r.observations, o.type = "HOME_AWAY_BIAS" ∧ o.severity = s) := by
  intro h
  have hsev : homeAwayBiasSeverity terelius.homeBias = some "MEDIUM" := by
    show homeAwayBiasSeverity 20.0 = some "MEDIUM"
    unfold homeAwayBiasSeverity
    rw [show |(20.0 : ℚ)| = 20.0 from abs_of_pos (by norm_num),
      if_pos (by norm_num), if_neg (by norm_num)]
  rcases h terelius (List.mem_cons_self _ _) "MEDIUM" hsev with ⟨o, ho, hty, _⟩
  have ho' : o = ⟨"TIMING_PATTERN", "MEDIUM",
      "Calls disproportionate number of penalties in final period (60.0%)"⟩ := by
    simpa [terelius] using ho
  subst ho'
  exact absurd hty (by decide)

/-- C1, amended: in the sample payload the HOME_AWAY_BIAS rule holds only in
the converse direction — every HOME_AWAY_BIAS Observation that is present
occurs at a record whose `|homeBias|` is at least 15. -/
theorem c1_amended :
    ∀ r ∈ sampleRefereeData, ∀ o ∈ r.observations,
      o.type = "HOME_AWAY_BIAS" → 15 ≤ |r.homeBias| := by
  intro r hr o ho hty
  simp only [sampleRefereeData, List.mem_cons, List.not_mem_nil, or_false] at hr
  rcases hr with rfl | rfl | rfl | rfl | rfl
  · rcases (by simpa [terelius] using ho : o = _) with rfl
    exact absurd hty (by decide)
  · rcases (by simpa [trofast] using ho : o = _ ∨ o = _) with rfl | rfl <;>
      exact absurd hty (by decide)
  · rcases (by simpa [jonsson] using ho : o = _) with rfl
    exact absurd hty (by decide)
  · rcases (by simpa [mattsson] using ho : o = _) with rfl
    exact absurd hty (by decide)
  · show (15 : ℚ) ≤ |(-33.3 : ℚ)|
    rw [abs_of_neg (by norm_num)]
    norm_num

/-- C1, witness: the amended theorem applied to the one HOME_AWAY_BIAS
Observation in the payload, on David Dornlöv's record. -/
theorem c1_amended_witness : (15 : ℚ) ≤ |dornlov.homeBias| :=
  c1_amended dornlov
    (List.mem_cons_of_mem _ (List.mem_cons_of_mem _ (List.mem_cons_of_mem _
      (List.mem_cons_of_mem _ (List.mem_cons_self _ _)))))
    ⟨"HOME_AWAY_BIAS", "MEDIUM",
      "Shows significant bias AGAINST away team - calls 15.3% more penalties than league average"⟩
    (List.mem_cons_self _ _) rfl

/-- C2, counterexample: the claim — a record with fewer than the default
minimum of 3 matches carries no significance-based Observation — is false on
the sample payload: Martin Jonsson's record has matches = 1 yet carries a
PENALTY_RATE Observation, one of the four significance-based detector
kinds. -/
theorem c2_counterexample :
    ¬ (∀ r ∈ sampleRefereeData, r.«matches» < 3 →
        ∀ o ∈ r.observations, o.type ∉ detectorKinds) := by
  intro h
  exact h jonsson
    (List.mem_cons_of_mem _ (List.mem_cons_of_mem _ (List.mem_cons_self _ _)))
    (by decide)
    ⟨"PENALTY_RATE", "MEDIUM",
      "Unusually strict referee - calls 5.0 penalties per match vs league average of 2.6"⟩
    (List.mem_cons_self _ _) (by decide)

/-- C2, amended: records below the minimum sample size still report their raw
counts (positive matches and penalties), but significance-based Observations
are not suppressed for them — every such record carries a PENALTY_RATE
Observation. -/
theorem c2_amended :
    ∀ r ∈ sampleRefereeData, r.«matches» < 3 →
      0 < r.«matches» ∧ 0 < r.penalties ∧
        (r.observations.any fun o => o.type == "PENALTY_RATE") = true := by
  intro r hr hlt
  simp only [sampleRefereeData, List.mem_cons, List.not_mem_nil, or_false] at hr
  rcases hr with rfl | rfl | rfl | rfl | rfl
  · exact absurd hlt (by decide)
  · exact absurd hlt (by decide)
  · exact ⟨by decide, by decide, by decide⟩
  · exact ⟨by decide, by decide, by decide⟩
  · exact absurd hlt (by decide)

/-- C2, witness: the amended theorem applied to Martin Jonsson's record
(matches = 1). -/
theorem c2_amended_witness :
    0 < jonsson.«matches» ∧ 0 < jonsson.penalties ∧
      (jonsson.observations.any fun o => o.type == "PENALTY_RATE") = true :=
  c2_amended jonsson
    (List.mem_cons_of_mem _ (List.mem_cons_of_mem _ (List.mem_cons_self _ _)))
    (by decide)

/-- C3: the first sample fixture is exactly the expected end-to-end record
`{matches := 4, penalties := 10, avgPenalties := 2.5, homeBias := 20.0,
observations := [TIMING_PATTERN MEDIUM]}`, its average is 10/4, and the
Statistical Processor formula gives `homeBias = 100 * (6 - 4) / 10 = 20`. -/
theorem c3_end_to_end_fixture :
    sampleRefereeData.head? = some terelius ∧
    terelius =
      { id := 3262, name := "Patric Terelius", «matches» := 4, penalties := 10,
        avgPenalties := 2.5, homeBias := 20.0,
        observations :=
          [⟨"TIMING_PATTERN", "MEDIUM",
            "Calls disproportionate number of penalties in final period (60.0%)"⟩] } ∧
    terelius.avgPenalties = 10 / 4 ∧
    homeBiasFormula 6 4 10 = 20 := by
  refine ⟨rfl, rfl, by norm_num [terelius], by norm_num [homeBiasFormula]⟩

/-- C4: for every record of the sample payload, avgPenalties equals
penalties / matches (exactly, hence within any floating-point tolerance). -/
theorem c4_avg_quotient :
    ∀ r ∈ sampleRefereeData,
      r.avgPenalties = (r.penalties : ℚ) / (r.«matches» : ℚ) := by
  intro r hr
  simp only [sampleRefereeData, List.mem_cons, List.not_mem_nil, or_false] at hr
  rcases hr with rfl | rfl | rfl | rfl | rfl <;>
    norm_num [terelius, trofast, jonsson, mattsson, dornlov]

/-- C4, witness: the quotient identity evaluated on the first record. -/
theorem c4_avg_quotient_witness :
    terelius.avgPenalties = (terelius.penalties : ℚ) / (terelius.«matches» : ℚ) :=
  c4_avg_quotient terelius (List.mem_cons_self _ _)

/-- C5: every record's observation list is ordered by the fixed kind order
PENALTY_RATE, HOME_AWAY_BIAS, TIMING_PATTERN, PENALTY_TYPE_BIAS, and any two
runs of the analysis pass return identical output (it is a constant pure
function, so the ordering and content are reproducible byte for byte). -/
theorem c5_order_and_reproducible :
    (∀ r ∈ sampleRefereeData,
      (r.observations.map fun o => kindIndex o.type).Pairwise (· ≤ ·)) ∧
    ∀ u v : Unit, analysisRun u = analysisRun v := by
  refine ⟨?_, fun _ _ => rfl⟩
  intro r hr
  simp only [sampleRefereeData, List.mem_cons, List.not_mem_nil, or_false] at hr
  rcases hr with rfl | rfl | rfl | rfl | rfl <;> decide

/-- C5, witness: the ordering fact on Patrik Trofast's two-element observation
list, and reproducibility at the unit input. -/
theorem c5_order_witness :
    (trofast.observations.map fun o => kindIndex o.type).Pairwise (· ≤ ·) ∧
      analysisRun () = analysisRun () :=
  ⟨c5_order_and_reproducible.1 trofast
      (List.mem_cons_of_mem _ (List.mem_cons_self _ _)),
    c5_order_and_reproducible.2 () ()⟩

/-- C6: the payload is a well-formed mapping keyed by referee identifier —
looking any present record's id up in the payload returns exactly that record,
and the ids are pairwise distinct; each record carries the fields
matches, penalties, avgPenalties, homeBias and an ordered observation list of
`{type, severity, description}` objects by construction of `Referee` and
`Observation`. -/
theorem c6_output_shape :
    (∀ r ∈ sampleRefereeData, lookupById sampleRefereeData r.id = some r) ∧
    (sampleRefereeData.map Referee.id).Nodup := by
  refine ⟨?_, by decide⟩
  intro r hr
  simp only [sampleRefereeData, List.mem_cons, List.not_mem_nil, or_false] at hr
  rcases hr with rfl | rfl | rfl | rfl | rfl <;> rfl

/-- C6, witness: lookup of the first record's id recovers the record. -/
theorem c6_output_shape_witness :
    lookupById sampleRefereeData terelius.id = some terelius :=
  c6_output_shape.1 terelius (List.mem_cons_self _ _)

/-- C7: every record present in the sample payload has strictly positive
matches, so no zero-match referee appears and avgPenalties is never a
division by zero. -/
theorem c7_positive_matches :
    ∀ r ∈ sampleRefereeData, 0 < r.«matches» := by
  intro r hr
  simp only [sampleRefereeData, List.mem_cons, List.not_mem_nil, or_false] at hr
  rcases hr with rfl | rfl | rfl | rfl | rfl <;> decide

/-- C7, witness: positivity of the first record's match count. -/
theorem c7_positive_matches_witness : 0 < terelius.«matches» :=
  c7_positive_matches terelius (List.mem_cons_self _ _)

/-- C8: every record's homeBias lies in [-100, 100], and the Statistical
Processor formula yields exactly 0 whenever the home and away penalty counts
are equal. -/
theorem c8_homeBias_range_and_zero :
    (∀ r ∈ sampleRefereeData, -100 ≤ r.homeBias ∧ r.homeBias ≤ 100) ∧
    ∀ h t : ℚ, homeBiasFormula h h t = 0 := by
  constructor
  · intro r hr
    simp only [sampleRefereeData, List.mem_cons, List.not_mem_nil, or_false] at hr
    rcases hr with rfl | rfl | rfl | rfl | rfl <;>
      constructor <;> norm_num [terelius, trofast, jonsson, mattsson, dornlov]
  · intro h t
    simp [homeBiasFormula, sub_self]

/-- C8, witness: the range fact on the first record and the zero-bias fact at
7 home, 7 away, 14 total. -/
theorem c8_homeBias_witness :
    (-100 ≤ terelius.homeBias ∧ terelius.homeBias ≤ 100) ∧
      homeBiasFormula 7 7 14 = 0 :=
  ⟨c8_homeBias_range_and_zero.1 terelius (List.mem_cons_self _ _),
    c8_homeBias_range_and_zero.2 7 14⟩

/-- C9, counterexample: the claim — every string outside the four enumerated
severities gets the default emoji — is false of the source lookup: bracket
access on the object literal traverses the prototype chain, so the input
"constructor" resolves to the truthy inherited `Object.prototype.constructor`
and is returned instead of the default blue circle. -/
theorem c9_counterexample :
    ¬ (∀ s : String, s ∉ ["LOW", "MEDIUM", "HIGH", "CRITICAL"] →
        getSeverityEmoji s = JsValue.str "🔵") := by
  intro h
  exact absurd (h "constructor" (by decide)) (by decide)

/-- C9, amended: getSeverityEmoji maps each of the four enumerated severities
to its emoji, and every other string that does not name an inherited
`Object.prototype` member to the default blue circle; a string naming such an
inherited member returns that truthy member instead of the default.  The
function is still total: it never fails or returns undefined. -/
theorem c9_severity_emoji_prototype :
    getSeverityEmoji "LOW" = JsValue.str "🟡" ∧
    getSeverityEmoji "MEDIUM" = JsValue.str "🟠" ∧
    getSeverityEmoji "HIGH" = JsValue.str "🔴" ∧
    getSeverityEmoji "CRITICAL" = JsValue.str "⚠️" ∧
    (∀ s : String, s ∉ ["LOW", "MEDIUM", "HIGH", "CRITICAL"] →
        s ∉ objectProtoKeys → getSeverityEmoji s = JsValue.str "🔵") ∧
    ∀ s ∈ objectProtoKeys, getSeverityEmoji s = JsValue.inherited s := by
  refine ⟨rfl, rfl, rfl, rfl, ?_, by decide⟩
  intro s hs hp
  unfold getSeverityEmoji
  split_ifs with h1 h2 h3 h4
  · subst h1; exact absurd (by decide) hs
  · subst h2; exact absurd (by decide) hs
  · subst h3; exact absurd (by decide) hs
  · subst h4; exact absurd (by decide) hs
  · rfl

/-- C9, witness: an arbitrary severity string that is neither enumerated nor
an inherited property name gets the default emoji. -/
theorem c9_severity_emoji_prototype_witness :
    getSeverityEmoji "UNKNOWN" = JsValue.str "🔵" :=
  c9_severity_emoji_prototype.2.2.2.2.1 "UNKNOWN" (by decide) (by decide)

/-- C10: the card's bias color is red exactly when homeBias > 15 and blue
exactly when homeBias < -15, with both strict, so homeBias exactly 15 or
exactly -15 renders with the neutral green color. -/
theorem c10_bias_color_strict :
    (∀ hb : ℚ, biasColor hb = "#ef4444" ↔ 15 < hb) ∧
    (∀ hb : ℚ, biasColor hb = "#3b82f6" ↔ hb < -15) ∧
    biasColor 15 = "#10b981" ∧
    biasColor (-15) = "#10b981" := by
  refine ⟨?_, ?_, ?_, ?_⟩
  · intro hb
    unfold biasColor
    split_ifs with h1 h2
    · exact iff_of_true rfl h1
    · exact iff_of_false (by decide) h1
    · exact iff_of_false (by decide) h1
  · intro hb
    unfold biasColor
    split_ifs with h1 h2
    · exact iff_of_false (by decide) (by intro h; linarith)
    · exact iff_of_true rfl h2
    · exact iff_of_false (by decide) h2
  · unfold biasColor
    rw [if_neg (by norm_num), if_neg (by norm_num)]
  · unfold biasColor
    rw [if_neg (by norm_num), if_neg (by norm_num)]

/-- C10, witness: a record-like bias of 20 renders red and the boundary value
15 renders green. -/
theorem c10_bias_color_witness :
    biasColor 20 = "#ef4444" ∧ biasColor 15 = "#10b981" :=
  ⟨(c10_bias_color_strict.1 20).mpr (by norm_num),
    c10_bias_color_strict.2.2.1⟩
